import Mathlib

/-!
Verification development for the SMM bot (src/main.py).

The order-placement engine of the bot is shallowly embedded here:
pure Python functions become Lean functions, the mutable per-user
state (`STATE`, `_last_action`, the sqlite `users`/`orders` rows)
becomes an explicit `BotState` record threaded through `on_text`,
and network calls (`zayn_services`, `zayn_add_order`) become
explicit parameters describing the provider outcome.  Python floats
are modelled as exact rationals, Python ints as `Int`.
-/

namespace SmmBot

/-! ## Configuration (env defaults from src/main.py, lines 40-50) -/

/-- DEFAULT_MARKUP_PERCENT: markup applied to sellers (env default "10"). -/
def DEFAULT_MARKUP_PERCENT : ℚ := 10

/-- NONSELLER_MARKUP_PERCENT: markup for ordinary users (env default "15"). -/
def NONSELLER_MARKUP_PERCENT : ℚ := 15

/-- PRICE_PER_1000: global rate multiplier (env default "1", per-1000 mode). -/
def PRICE_PER_1000 : ℚ := 1

/-- COOLDOWN_SECONDS: minimum spacing between accepted messages (env default "2"). -/
def COOLDOWN_SECONDS : ℚ := 2

/-! ## PricingEngine (src/main.py `calc_price_idr`, lines 383-387) -/

/-- Markup chosen inside `calc_price_idr`:
`DEFAULT_MARKUP_PERCENT if int(user_row["is_seller"]) == 1 else NONSELLER_MARKUP_PERCENT`. -/
def resolve_markup (is_seller : Bool) : ℚ :=
  if is_seller then DEFAULT_MARKUP_PERCENT else NONSELLER_MARKUP_PERCENT

/-- Core arithmetic of `calc_price_idr` with the markup percent as an explicit
argument: `raw = base_rate_per_1000 * (quantity / 1000.0) * PRICE_PER_1000`,
`final = raw * (1.0 + markup / 100.0)`, result `ceil(final)`. -/
def calc_price_with_markup (base_rate_per_1000 : ℚ) (quantity : ℤ) (markup : ℚ) : ℤ :=
  let raw : ℚ := base_rate_per_1000 * ((quantity : ℚ) / 1000) * PRICE_PER_1000
  let final : ℚ := raw * (1 + markup / 100)
  Int.ceil final

/-- `calc_price_idr(user_row, base_rate_per_1000, quantity)`: the user row only
contributes its `is_seller` flag, which selects the markup percent. -/
def calc_price_idr (is_seller : Bool) (base_rate_per_1000 : ℚ) (quantity : ℤ) : ℤ :=
  calc_price_with_markup base_rate_per_1000 quantity (resolve_markup is_seller)

/-- Price formula as the spec words it (spec section 4.2, per-1000 mode):
`base = panelRate * quantity / 1000`, `sell = base * (1 + markupPercent/100)`,
result `ceil(sell)`. -/
def spec_price (panelRate : ℚ) (quantity : ℤ) (markupPercent : ℚ) : ℤ :=
  Int.ceil (panelRate * (quantity : ℚ) / 1000 * (1 + markupPercent / 100))

theorem calc_price_eq_spec (rate : ℚ) (qty : ℤ) (markup : ℚ) :
    calc_price_with_markup rate qty markup = spec_price rate qty markup := by
  show Int.ceil (rate * ((qty : ℚ) / 1000) * PRICE_PER_1000 * (1 + markup / 100)) = _
  unfold spec_price PRICE_PER_1000
  congr 1
  ring

/-- C5: for every panelRate, quantity and resolved markupPercent, the price
equals `ceil(base * (1 + markupPercent/100))` with `base = panelRate * quantity
/ 1000` (per-1000 mode), and the scenario `panelRate = 10000`, `quantity =
2000`, `markupPercent = 10` (the seller markup) yields price `22000`. -/
theorem C5_price_formula :
    (∀ (is_seller : Bool) (rate : ℚ) (qty : ℤ),
      calc_price_idr is_seller rate qty = spec_price rate qty (resolve_markup is_seller)) ∧
    calc_price_idr true 10000 2000 = 22000 ∧
    resolve_markup true = 10 := by
  refine ⟨fun s rate qty => calc_price_eq_spec rate qty (resolve_markup s), ?_, ?_⟩
  · unfold calc_price_idr calc_price_with_markup resolve_markup
      DEFAULT_MARKUP_PERCENT PRICE_PER_1000
    norm_num
  · rfl

/-- C6: for panelRate ≥ 0, quantity > 0, markupPercent ≥ 0 the price is a
non-negative integer, monotonically non-decreasing in the quantity and in the
markup percent. -/
theorem C6_price_monotone (rate : ℚ) (qty : ℤ) (markup : ℚ)
    (hr : 0 ≤ rate) (hq : 0 < qty) (hm : 0 ≤ markup) :
    0 ≤ calc_price_with_markup rate qty markup ∧
    (∀ qty2 : ℤ, qty ≤ qty2 →
      calc_price_with_markup rate qty markup ≤ calc_price_with_markup rate qty2 markup) ∧
    (∀ markup2 : ℚ, markup ≤ markup2 →
      calc_price_with_markup rate qty markup ≤ calc_price_with_markup rate qty markup2) := by
  have hq0 : (0 : ℚ) ≤ (qty : ℚ) := by exact_mod_cast hq.le
  have hm1 : (0 : ℚ) ≤ 1 + markup / 100 := by positivity
  refine ⟨?_, ?_, ?_⟩
  · unfold calc_price_with_markup PRICE_PER_1000
    have : (0 : ℚ) ≤ rate * ((qty : ℚ) / 1000) * 1 * (1 + markup / 100) := by positivity
    simpa using Int.ceil_nonneg this
  · intro qty2 hle
    have hle2 : (qty : ℚ) ≤ (qty2 : ℚ) := by exact_mod_cast hle
    unfold calc_price_with_markup PRICE_PER_1000
    apply Int.ceil_le_ceil
    have h1000 : (0 : ℚ) < 1000 := by norm_num
    gcongr
  · intro markup2 hle
    unfold calc_price_with_markup PRICE_PER_1000
    apply Int.ceil_le_ceil
    have hc : (0 : ℚ) ≤ rate * ((qty : ℚ) / 1000) * 1 := by positivity
    have hmm : 1 + markup / 100 ≤ 1 + markup2 / 100 := by linarith
    exact mul_le_mul_of_nonneg_left hmm hc

/-- Witness for C6 at rate 10000, quantity 2000, markup 10. -/
theorem C6_price_monotone_witness :
    0 ≤ calc_price_with_markup 10000 2000 10 ∧
    calc_price_with_markup 10000 2000 10 ≤ calc_price_with_markup 10000 3000 10 ∧
    calc_price_with_markup 10000 2000 10 ≤ calc_price_with_markup 10000 2000 15 := by
  obtain ⟨h1, h2, h3⟩ :=
    C6_price_monotone 10000 2000 10 (by norm_num) (by norm_num) (by norm_num)
  exact ⟨h1, h2 3000 (by norm_num), h3 15 (by norm_num)⟩

/-! ## Data model

`STATE[user_id]` is a Python dict filled key by key through `set_state`
and read through `get_state(user_id, key, default)`; it is modelled as an
`Option Sess` (absent entry / present dict) whose fields are `Option`s
(absent key / present key), with the read-side defaults applied by `sget`. -/

/-- One user's entry of the global `STATE` dict (src/main.py, lines 400-410). -/
structure Sess where
  mode : Option String
  step : Option String
  service_id : Option String
  service_name : Option String
  service_rate : Option ℚ
  link : Option String
  quantity : Option ℤ
  price : Option ℤ
deriving DecidableEq

/-- Dict with no keys set yet (`STATE.setdefault(user_id, {})`). -/
def emptySess : Sess := ⟨none, none, none, none, none, none, none, none⟩

/-- Model of `get_state(user_id, key, default)`. -/
def sget {α : Type} (s : Option Sess) (f : Sess → Option α) (d : α) : α :=
  match s with
  | none => d
  | some ss => (f ss).getD d

/-- Model of `set_state(user_id, key, value)` (creates the entry if absent). -/
def supd (s : Option Sess) (f : Sess → Sess) : Option Sess :=
  some (f (s.getD emptySess))

/-- Row of the sqlite `orders` table as written by `create_order`
(src/main.py, lines 151-168). -/
structure OrderRow where
  user_id : ℤ
  provider_order_id : String
  service_id : String
  service_name : String
  link : String
  quantity : ℤ
  price : ℤ
  status : String
  created_at : ℤ
deriving DecidableEq

/-- State owned by the program for one user: the sqlite `users` row
(`balance`, `is_seller`), the `STATE` entry, the `_last_action` timestamp
and the user's `orders` rows. -/
structure BotState where
  balance : ℤ
  is_seller : Bool
  sess : Option Sess
  last_action : ℚ
  orders : List OrderRow
deriving DecidableEq

/-! ## Ledger operations (src/main.py, lines 139-168) -/

/-- `set_balance(user_id, amount)`: `UPDATE users SET balance=?`. -/
def set_balance (st : BotState) (amount : ℤ) : BotState :=
  { st with balance := amount }

/-- `add_balance(user_id, delta)`: `UPDATE users SET balance=balance+?`. -/
def add_balance (st : BotState) (delta : ℤ) : BotState :=
  { st with balance := st.balance + delta }

/-- `create_order(...)`: appends one row to the `orders` table. -/
def create_order (st : BotState) (row : OrderRow) : BotState :=
  { st with orders := st.orders ++ [row] }

/-- Admin `/setsaldo` handler core (src/main.py, lines 573-586): after the
admin gate, parses an arbitrary integer and stores it as the balance. -/
def setsaldo (admin : Bool) (st : BotState) (amount : ℤ) : BotState :=
  if admin then set_balance st amount else st

/-- Admin `/addsaldo` handler core (src/main.py, lines 588-602): after the
admin gate, adds an arbitrary integer delta to the balance. -/
def addsaldo (admin : Bool) (st : BotState) (delta : ℤ) : BotState :=
  if admin then add_balance st delta else st

/-! ## Provider layer -/

/-- One catalog entry, as seen after `pick_service_fields` extraction
(src/main.py, lines 347-381): `sid`, `name`, `rate`, `category`.
`minQuantity`/`maxQuantity` model bounds the provider may ship in the raw
payload; no code in src/main.py ever reads them. -/
structure SvcEntry where
  id : String
  name : String
  rate : ℚ
  category : String
  minQuantity : ℤ
  maxQuantity : ℤ
deriving DecidableEq

/-- Shape of a `zayn_add_order` JSON response restricted to the keys the
order-id extraction looks at (src/main.py, lines 822-828): top-level
`order_id` / `order` / `id` and `data.order_id` / `data.order`. -/
structure ProviderResp where
  order_id : Option String
  order : Option String
  data_order_id : Option String
  data_order : Option String
  id : Option String
deriving DecidableEq

/-- Python truthiness on an optional string field: an absent key and an
empty string are both falsy in the `a or b or ...` chain. -/
def truthy (o : Option String) : Option String :=
  o.bind fun s => if s = "" then none else some s

/-- Order-id normalization (src/main.py, lines 822-828):
`resp.get("order_id") or resp.get("order") or resp.get("data",{}).get("order_id")
or resp.get("data",{}).get("order") or resp.get("id")`, with the final
`if not provider_oid` truthiness check folded in. -/
def extract_oid (r : ProviderResp) : Option String :=
  (truthy r.order_id).orElse fun _ =>
    (truthy r.order).orElse fun _ =>
      (truthy r.data_order_id).orElse fun _ =>
        (truthy r.data_order).orElse fun _ =>
          truthy r.id

/-- Did the submission attempt fail to produce an order id?  Either
`zayn_add_order` raised (transport failure / no dict response) or the dict
response carries no truthy order id. -/
def submission_failed (provider : Except Unit ProviderResp) : Bool :=
  match provider with
  | .error _ => true
  | .ok resp => (extract_oid resp).isNone

/-! ## Python string primitives

`str.strip()`, `str.upper()` and `int(str)` are modelled structurally over
the character list of the string. -/

/-- Whitespace removed by `str.strip()`. -/
def pyIsSpace (c : Char) : Bool :=
  c = ' ' || c = '\t' || c = '\n' || c = '\r' || c = '\x0b' || c = '\x0c'

/-- Model of `str.strip()`. -/
def pyStrip (s : String) : String :=
  String.mk (((s.data.dropWhile pyIsSpace).reverse.dropWhile pyIsSpace).reverse)

/-- Model of `str.upper()` (ASCII case mapping). -/
def pyUpper (s : String) : String :=
  String.mk (s.data.map Char.toUpper)

/-- Value of a non-empty all-digit character list. -/
def digitsVal (l : List Char) : Option Nat :=
  if l.isEmpty then none
  else if l.all Char.isDigit then
    some (l.foldl (fun a c => a * 10 + (c.toNat - 48)) 0)
  else none

/-- Model of Python `int(text)` on already-stripped text: an optional sign
followed by decimal digits; anything else raises (returns `none`). -/
def pyParseInt (s : String) : Option Int :=
  match s.data with
  | '-' :: rest => (digitsVal rest).map (fun n => -(n : Int))
  | '+' :: rest => (digitsVal rest).map (fun n => (n : Int))
  | l => (digitsVal l).map (fun n => (n : Int))

/-! ## Observable effects of one `on_text` call -/

/-- Tag naming which `reply_text` call a branch of `on_text` performs. -/
inductive ReplyTag where
  | serviceOk
  | linkShort
  | linkOk
  | qtyNotInt
  | qtyMin1
  | confirmPrompt
  | cancelled
  | confirmRetry
  | insufficientFunds
  | submitFailed
  | noOrderId
  | orderDone
deriving DecidableEq

/-- Externally visible effect performed by `on_text`, in program order:
the provider call `zayn_add_order`, the ledger calls `add_balance` /
`create_order`, and each `reply_text`. -/
inductive Event where
  | submit (service_id : String) (link : String) (quantity : ℤ)
  | addBalanceCall (delta : ℤ)
  | createOrderCall (row : OrderRow)
  | reply (tag : ReplyTag)
deriving DecidableEq

/-- Ledger debit event: an `add_balance` call with a negative delta. -/
def isDebit : Event → Bool
  | Event.addBalanceCall d => decide (d < 0)
  | _ => false

/-- Provider submission event. -/
def isSubmit : Event → Bool
  | Event.submit _ _ _ => true
  | _ => false

/-- Any balance-mutating ledger call. -/
def isLedgerCall : Event → Bool
  | Event.addBalanceCall _ => true
  | _ => false

/-- Does a debit event occur strictly before some submission event? -/
def debit_before_submit : List Event → Bool
  | [] => false
  | e :: rest => (isDebit e && rest.any isSubmit) || debit_before_submit rest

/-! ## Order flow: `on_text` (src/main.py, lines 712-854)

The handler is a function of the user's state, the current time, the
incoming text, and the outcomes of the two network calls it may make
(`zayn_services` at the service step, `zayn_add_order` at the confirm
step), each `Except Unit _` standing for raise-or-return.  It returns the
new state and the list of effects in program order. -/

/-- Model of `cooldown_ok` plus the whole `on_text` order flow. -/
def on_text (uid : ℤ) (st : BotState) (now : ℚ) (text0 : String)
    (catalog : Except Unit (List SvcEntry))
    (provider : Except Unit ProviderResp) : BotState × List Event :=
  if now - st.last_action < COOLDOWN_SECONDS then (st, [])
  else
    let st1 : BotState := { st with last_action := now }
    if sget st1.sess Sess.mode "" ≠ "order" then (st1, [])
    else
      let text := pyStrip text0
      let step := sget st1.sess Sess.step "service"
      if step = "service" then
        let service_id := text
        let found : Option SvcEntry :=
          match catalog with
          | .error _ => none
          | .ok services => services.find? fun e => (e.id != "") && (e.id == service_id)
        let svc_name : String :=
          match found with
          | some e => e.name
          | none => "Service " ++ service_id
        let rate : ℚ :=
          match found with
          | some e => e.rate
          | none => 0
        ({ st1 with sess := supd st1.sess fun s =>
            { s with service_id := some service_id, service_name := some svc_name,
                     service_rate := some rate, step := some "link" } },
         [Event.reply ReplyTag.serviceOk])
      else if step = "link" then
        if text.length < 4 then (st1, [Event.reply ReplyTag.linkShort])
        else
          ({ st1 with sess := supd st1.sess fun s =>
              { s with link := some text, step := some "qty" } },
           [Event.reply ReplyTag.linkOk])
      else if step = "qty" then
        match pyParseInt text with
        | none => (st1, [Event.reply ReplyTag.qtyNotInt])
        | some qty =>
          if qty ≤ 0 then (st1, [Event.reply ReplyTag.qtyMin1])
          else
            let rate := sget st1.sess Sess.service_rate 0
            let price : ℤ := if rate ≠ 0 then calc_price_idr st1.is_seller rate qty else 1
            ({ st1 with sess := supd st1.sess fun s =>
                { s with quantity := some qty, price := some price, step := some "confirm" } },
             [Event.reply ReplyTag.confirmPrompt])
      else if step = "confirm" then
        if pyUpper text = "BATAL" then
          ({ st1 with sess := none }, [Event.reply ReplyTag.cancelled])
        else if pyUpper text ≠ "YA" then (st1, [Event.reply ReplyTag.confirmRetry])
        else
          let price := sget st1.sess Sess.price 0
          if st1.balance < price then
            ({ st1 with sess := none }, [Event.reply ReplyTag.insufficientFunds])
          else
            let service_id := sget st1.sess Sess.service_id ""
            let link := sget st1.sess Sess.link ""
            let qty := sget st1.sess Sess.quantity 0
            let svc_name := sget st1.sess Sess.service_name "Unknown"
            match provider with
            | .error _ =>
              ({ st1 with sess := none },
               [Event.submit service_id link qty, Event.reply ReplyTag.submitFailed])
            | .ok resp =>
              match extract_oid resp with
              | none =>
                ({ st1 with sess := none },
                 [Event.submit service_id link qty, Event.reply ReplyTag.noOrderId])
              | some oid =>
                let st2 := add_balance st1 (-price)
                let row : OrderRow :=
                  { user_id := uid, provider_order_id := oid, service_id := service_id,
                    service_name := svc_name, link := link, quantity := qty, price := price,
                    status := "PENDING", created_at := Int.floor now }
                let st3 := create_order st2 row
                ({ st3 with sess := none },
                 [Event.submit service_id link qty, Event.addBalanceCall (-price),
                  Event.createOrderCall row, Event.reply ReplyTag.orderDone])
      else (st1, [])

/-- Session created by `/order` (src/main.py, lines 513-522): clear state,
then set `mode = "order"` and `step = "service"`. -/
def order_cmd (st : BotState) : BotState :=
  { st with sess := some { emptySess with mode := some "order", step := some "service" } }

/-- Session dict as it stands at the confirmation step, after the
service, link and qty steps have filled their keys. -/
def confirmSess (sid sname : String) (rate : ℚ) (lk : String) (qty price : ℤ) : Sess :=
  { mode := some "order", step := some "confirm", service_id := some sid,
    service_name := some sname, service_rate := some rate, link := some lk,
    quantity := some qty, price := some price }

/-- Run `on_text` on a state sitting at the confirmation step. -/
def run_confirm (uid bal : ℤ) (seller : Bool) (sid sname : String) (rate : ℚ)
    (lk : String) (qty price : ℤ) (last : ℚ) (orders : List OrderRow) (now : ℚ)
    (tok : String) (catalog : Except Unit (List SvcEntry))
    (provider : Except Unit ProviderResp) : BotState × List Event :=
  on_text uid ⟨bal, seller, some (confirmSess sid sname rate lk qty price), last, orders⟩
    now tok catalog provider

/-! ## Behaviour of the confirmation step -/

/-- Reduction of `on_text` on a confirmation-step state when the user sends
`YA`, the cooldown has elapsed and the balance covers the price: the handler
always submits first; it debits and records an order (status `PENDING`) only
when the response yields an order id, and otherwise leaves balance and orders
untouched. -/
theorem run_confirm_ya (uid bal : ℤ) (seller : Bool) (sid sname : String) (rate : ℚ)
    (lk : String) (qty price : ℤ) (last : ℚ) (orders : List OrderRow) (now : ℚ)
    (catalog : Except Unit (List SvcEntry)) (provider : Except Unit ProviderResp)
    (hcool : ¬ now - last < COOLDOWN_SECONDS) (hbal : ¬ bal < price) :
    run_confirm uid bal seller sid sname rate lk qty price last orders now "YA" catalog provider =
      match provider with
      | .error _ =>
        (⟨bal, seller, none, now, orders⟩,
         [Event.submit sid lk qty, Event.reply ReplyTag.submitFailed])
      | .ok resp =>
        match extract_oid resp with
        | none =>
          (⟨bal, seller, none, now, orders⟩,
           [Event.submit sid lk qty, Event.reply ReplyTag.noOrderId])
        | some oid =>
          (⟨bal - price, seller, none, now,
             orders ++ [⟨uid, oid, sid, sname, lk, qty, price, "PENDING", Int.floor now⟩]⟩,
           [Event.submit sid lk qty, Event.addBalanceCall (-price),
            Event.createOrderCall ⟨uid, oid, sid, sname, lk, qty, price, "PENDING", Int.floor now⟩,
            Event.reply ReplyTag.orderDone]) := by
  have hym : pyUpper (pyStrip "YA") = "YA" := rfl
  cases provider with
  | error e =>
    simp [run_confirm, on_text, confirmSess, sget, supd, hcool, hbal, hym]
  | ok resp =>
    cases h : extract_oid resp with
    | none =>
      simp [run_confirm, on_text, confirmSess, sget, supd, hcool, hbal, hym, h]
    | some oid =>
      simp [run_confirm, on_text, confirmSess, sget, supd, hcool, hbal, hym, h,
        add_balance, create_order]
      omega

/-- A truthy extraction never yields the empty string. -/
theorem truthy_ne_empty (o : Option String) (t : String) (h : truthy o = some t) : t ≠ "" := by
  cases o with
  | none => simp [truthy] at h
  | some v =>
    by_cases hv : v = ""
    · simp [truthy, hv] at h
    · simp [truthy, hv] at h
      exact h ▸ hv

/-- Lifting `truthy_ne_empty` over one `orElse` link of the extraction chain. -/
theorem orElse_truthy_ne_empty (o : Option String) (f : Unit → Option String) (t : String)
    (hf : ∀ t2, f () = some t2 → t2 ≠ "")
    (h : (truthy o).orElse f = some t) : t ≠ "" := by
  rcases e : truthy o with _ | v <;> rw [e] at h
  · simp only [Option.orElse] at h
    exact hf t h
  · simp only [Option.orElse, Option.some.injEq] at h
    exact h ▸ truthy_ne_empty o v e

/-- The order id extracted from a provider response is never empty. -/
theorem extract_oid_ne_empty (r : ProviderResp) (t : String)
    (h : extract_oid r = some t) : t ≠ "" := by
  unfold extract_oid at h
  refine orElse_truthy_ne_empty _ _ _ (fun t2 h2 => ?_) h
  refine orElse_truthy_ne_empty _ _ _ (fun t3 h3 => ?_) h2
  refine orElse_truthy_ne_empty _ _ _ (fun t4 h4 => ?_) h3
  refine orElse_truthy_ne_empty _ _ _ (fun t5 h5 => ?_) h4
  exact truthy_ne_empty _ _ h5

/-- C1 (counterexample): a confirmed order whose submission succeeds.  The
effect trace contains a submission, yet no debit occurs before it — the
handler submits first and debits afterwards, so the claimed
debit-before-submit ordering is false. -/
theorem C1_counterexample :
    debit_before_submit (run_confirm 1 100000 true "77" "X" 10000 "mylink" 2000 22000 0 []
        10 "YA" (Except.ok []) (Except.ok ⟨some "555", none, none, none, none⟩)).2 = false ∧
    (run_confirm 1 100000 true "77" "X" 10000 "mylink" 2000 22000 0 []
        10 "YA" (Except.ok []) (Except.ok ⟨some "555", none, none, none, none⟩)).2.any
      isSubmit = true := by
  have h := run_confirm_ya 1 100000 true "77" "X" 10000 "mylink" 2000 22000 0 [] 10
    (Except.ok []) (Except.ok ⟨some "555", none, none, none, none⟩)
    (by norm_num [COOLDOWN_SECONDS]) (by norm_num)
  rw [h]
  exact ⟨rfl, rfl⟩

/-- C1 (amended): for every confirmed order that reaches submission, the
handler never debits before calling the provider — it submits first — and
whenever the submission fails (transport failure or a response lacking an
order id) no ledger call is made at all, so the balance is unchanged and no
refund is needed or issued. -/
theorem C1_submit_then_debit (uid bal : ℤ) (seller : Bool) (sid sname : String) (rate : ℚ)
    (lk : String) (qty price : ℤ) (last : ℚ) (orders : List OrderRow) (now : ℚ)
    (catalog : Except Unit (List SvcEntry)) (provider : Except Unit ProviderResp)
    (hcool : ¬ now - last < COOLDOWN_SECONDS) (hbal : ¬ bal < price) :
    debit_before_submit (run_confirm uid bal seller sid sname rate lk qty price last orders
        now "YA" catalog provider).2 = false ∧
    (submission_failed provider = true →
      (run_confirm uid bal seller sid sname rate lk qty price last orders
          now "YA" catalog provider).1.balance = bal ∧
      (run_confirm uid bal seller sid sname rate lk qty price last orders
          now "YA" catalog provider).2.filter isLedgerCall = []) := by
  rw [run_confirm_ya uid bal seller sid sname rate lk qty price last orders now
    catalog provider hcool hbal]
  cases provider with
  | error e => exact ⟨rfl, fun _ => ⟨rfl, rfl⟩⟩
  | ok resp =>
    dsimp only
    cases h : extract_oid resp with
    | none =>
      exact ⟨rfl, fun _ => ⟨rfl, rfl⟩⟩
    | some oid =>
      refine ⟨?_, ?_⟩
      · simp [debit_before_submit, isDebit, isSubmit]
      · intro hfail
        simp [submission_failed, h] at hfail

/-- Witness for C1 (amended) at a concrete failing submission. -/
theorem C1_submit_then_debit_witness :
    (¬ (10 : ℚ) - 0 < COOLDOWN_SECONDS) ∧ (¬ (100000 : ℤ) < 22000) ∧
    (debit_before_submit (run_confirm 1 100000 true "77" "X" 10000 "mylink" 2000 22000 0 []
        10 "YA" (Except.ok []) (Except.error ())).2 = false ∧
    (submission_failed (Except.error ()) = true →
      (run_confirm 1 100000 true "77" "X" 10000 "mylink" 2000 22000 0 []
          10 "YA" (Except.ok []) (Except.error ())).1.balance = 100000 ∧
      (run_confirm 1 100000 true "77" "X" 10000 "mylink" 2000 22000 0 []
          10 "YA" (Except.ok []) (Except.error ())).2.filter isLedgerCall = [])) :=
  ⟨by norm_num [COOLDOWN_SECONDS], by norm_num,
    C1_submit_then_debit 1 100000 true "77" "X" 10000 "mylink" 2000 22000 0 [] 10
      (Except.ok []) (Except.error ()) (by norm_num [COOLDOWN_SECONDS]) (by norm_num)⟩

/-- C2 (counterexample): a confirmed order accepted by the provider creates
exactly one order row, but its status is the literal `"PENDING"` — no row
with status `"SUBMITTED"` exists. -/
theorem C2_counterexample :
    (run_confirm 1 100000 true "77" "X" 10000 "mylink" 2000 22000 0 []
        10 "YA" (Except.ok []) (Except.ok ⟨some "555", none, none, none, none⟩)).1.orders.length
      = 1 ∧
    (run_confirm 1 100000 true "77" "X" 10000 "mylink" 2000 22000 0 []
        10 "YA" (Except.ok []) (Except.ok ⟨some "555", none, none, none, none⟩)).1.orders.countP
      (fun o => o.status == "SUBMITTED") = 0 := by
  have h := run_confirm_ya 1 100000 true "77" "X" 10000 "mylink" 2000 22000 0 [] 10
    (Except.ok []) (Except.ok ⟨some "555", none, none, none, none⟩)
    (by norm_num [COOLDOWN_SECONDS]) (by norm_num)
  rw [h]
  exact ⟨rfl, rfl⟩

/-- C2 (amended): for every confirmed order in which the provider returns an
order id, the final balance is the initial balance minus the price and
exactly one order row is appended, carrying status `"PENDING"` and a
non-empty provider order id. -/
theorem C2_success_settlement (uid bal : ℤ) (seller : Bool) (sid sname : String) (rate : ℚ)
    (lk : String) (qty price : ℤ) (last : ℚ) (orders : List OrderRow) (now : ℚ)
    (catalog : Except Unit (List SvcEntry)) (resp : ProviderResp) (oid : String)
    (hcool : ¬ now - last < COOLDOWN_SECONDS) (hbal : ¬ bal < price)
    (hoid : extract_oid resp = some oid) :
    (run_confirm uid bal seller sid sname rate lk qty price last orders
        now "YA" catalog (Except.ok resp)).1.balance = bal - price ∧
    (run_confirm uid bal seller sid sname rate lk qty price last orders
        now "YA" catalog (Except.ok resp)).1.orders =
      orders ++ [⟨uid, oid, sid, sname, lk, qty, price, "PENDING", Int.floor now⟩] ∧
    oid ≠ "" := by
  rw [run_confirm_ya uid bal seller sid sname rate lk qty price last orders now
    catalog (Except.ok resp) hcool hbal]
  dsimp only
  rw [hoid]
  exact ⟨rfl, rfl, extract_oid_ne_empty resp oid hoid⟩

/-- Witness for C2 (amended) at a concrete accepted submission. -/
theorem C2_success_settlement_witness :
    (¬ (10 : ℚ) - 0 < COOLDOWN_SECONDS) ∧ (¬ (100000 : ℤ) < 22000) ∧
    extract_oid ⟨some "555", none, none, none, none⟩ = some "555" ∧
    ((run_confirm 1 100000 true "77" "X" 10000 "mylink" 2000 22000 0 []
        10 "YA" (Except.ok []) (Except.ok ⟨some "555", none, none, none, none⟩)).1.balance
        = 100000 - 22000 ∧
    (run_confirm 1 100000 true "77" "X" 10000 "mylink" 2000 22000 0 []
        10 "YA" (Except.ok []) (Except.ok ⟨some "555", none, none, none, none⟩)).1.orders =
      [] ++ [⟨1, "555", "77", "X", "mylink", 2000, 22000, "PENDING", Int.floor (10 : ℚ)⟩] ∧
    ("555" : String) ≠ "") :=
  ⟨by norm_num [COOLDOWN_SECONDS], by norm_num, rfl,
    C2_success_settlement 1 100000 true "77" "X" 10000 "mylink" 2000 22000 0 [] 10
      (Except.ok []) ⟨some "555", none, none, none, none⟩ "555"
      (by norm_num [COOLDOWN_SECONDS]) (by norm_num) rfl⟩

/-- C3 (counterexample): the spec scenario — balance 100000, price 22000,
provider responds without a recognizable id (here an empty `order_id`).  The
final balance is indeed 100000, but no order row of any status is recorded:
the orders table stays empty, so no `FAILED` row exists. -/
theorem C3_counterexample :
    (run_confirm 1 100000 true "77" "X" 10000 "mylink" 2000 22000 0 []
        10 "YA" (Except.ok []) (Except.ok ⟨some "", none, none, none, none⟩)).1.balance
      = 100000 ∧
    (run_confirm 1 100000 true "77" "X" 10000 "mylink" 2000 22000 0 []
        10 "YA" (Except.ok []) (Except.ok ⟨some "", none, none, none, none⟩)).1.orders = [] := by
  have h := run_confirm_ya 1 100000 true "77" "X" 10000 "mylink" 2000 22000 0 [] 10
    (Except.ok []) (Except.ok ⟨some "", none, none, none, none⟩)
    (by norm_num [COOLDOWN_SECONDS]) (by norm_num)
  rw [h]
  exact ⟨rfl, rfl⟩

/-- C3 (amended): for every confirmed order whose submission yields no order
id, the balance is unchanged (net zero, because no debit ever happened), no
order row is recorded (in particular none with status `FAILED`), and the
session is discarded. -/
theorem C3_failure_net_zero (uid bal : ℤ) (seller : Bool) (sid sname : String) (rate : ℚ)
    (lk : String) (qty price : ℤ) (last : ℚ) (orders : List OrderRow) (now : ℚ)
    (catalog : Except Unit (List SvcEntry)) (provider : Except Unit ProviderResp)
    (hcool : ¬ now - last < COOLDOWN_SECONDS) (hbal : ¬ bal < price)
    (hfail : submission_failed provider = true) :
    (run_confirm uid bal seller sid sname rate lk qty price last orders
        now "YA" catalog provider).1.balance = bal ∧
    (run_confirm uid bal seller sid sname rate lk qty price last orders
        now "YA" catalog provider).1.orders = orders ∧
    (run_confirm uid bal seller sid sname rate lk qty price last orders
        now "YA" catalog provider).1.sess = none := by
  rw [run_confirm_ya uid bal seller sid sname rate lk qty price last orders now
    catalog provider hcool hbal]
  cases provider with
  | error e => exact ⟨rfl, rfl, rfl⟩
  | ok resp =>
    dsimp only
    cases h : extract_oid resp with
    | none =>
      exact ⟨rfl, rfl, rfl⟩
    | some oid => simp [submission_failed, h] at hfail

/-- Witness for C3 (amended) on the spec scenario. -/
theorem C3_failure_net_zero_witness :
    (¬ (10 : ℚ) - 0 < COOLDOWN_SECONDS) ∧ (¬ (100000 : ℤ) < 22000) ∧
    submission_failed (Except.ok (⟨some "", none, none, none, none⟩ : ProviderResp)) = true ∧
    ((run_confirm 1 100000 true "77" "X" 10000 "mylink" 2000 22000 0 []
        10 "YA" (Except.ok []) (Except.ok ⟨some "", none, none, none, none⟩)).1.balance
        = 100000 ∧
    (run_confirm 1 100000 true "77" "X" 10000 "mylink" 2000 22000 0 []
        10 "YA" (Except.ok []) (Except.ok ⟨some "", none, none, none, none⟩)).1.orders = [] ∧
    (run_confirm 1 100000 true "77" "X" 10000 "mylink" 2000 22000 0 []
        10 "YA" (Except.ok []) (Except.ok ⟨some "", none, none, none, none⟩)).1.sess = none) :=
  ⟨by norm_num [COOLDOWN_SECONDS], by norm_num, rfl,
    C3_failure_net_zero 1 100000 true "77" "X" 10000 "mylink" 2000 22000 0 [] 10
      (Except.ok []) (Except.ok ⟨some "", none, none, none, none⟩)
      (by norm_num [COOLDOWN_SECONDS]) (by norm_num) rfl⟩

/-- C10: a text message arriving less than COOLDOWN_SECONDS after the same
user's previous accepted message is dropped entirely — no reply, no effect,
and the whole state (conversation step, accumulated fields, balance, orders,
and even the cooldown timestamp itself) is unchanged, whatever the message
says. -/
theorem C10_cooldown_drop (uid : ℤ) (st : BotState) (now : ℚ) (text0 : String)
    (catalog : Except Unit (List SvcEntry)) (provider : Except Unit ProviderResp)
    (h : now - st.last_action < COOLDOWN_SECONDS) :
    on_text uid st now text0 catalog provider = (st, []) := by
  unfold on_text
  rw [if_pos h]

/-- Witness for C10: a valid confirmation token `YA`, sent mid-order at the
confirmation step one second after the previous accepted message, is dropped
with no reply and no state change. -/
theorem C10_cooldown_drop_witness :
    ((1 : ℚ) - 0 < COOLDOWN_SECONDS) ∧
    on_text 1 ⟨100000, true, some (confirmSess "77" "X" 10000 "mylink" 2000 22000), 0, []⟩
        1 "YA" (Except.ok []) (Except.ok ⟨some "555", none, none, none, none⟩) =
      (⟨100000, true, some (confirmSess "77" "X" 10000 "mylink" 2000 22000), 0, []⟩, []) :=
  ⟨by norm_num [COOLDOWN_SECONDS],
    C10_cooldown_drop 1 ⟨100000, true, some (confirmSess "77" "X" 10000 "mylink" 2000 22000), 0, []⟩
      1 "YA" (Except.ok []) (Except.ok ⟨some "555", none, none, none, none⟩)
      (by norm_num [COOLDOWN_SECONDS])⟩

/-- C4 (counterexample): the admin add-balance and set-balance commands pass
arbitrary parsed integers straight to the ledger, so a negative argument
drives the balance negative. -/
theorem C4_counterexample :
    (addsaldo true ⟨0, false, none, 0, []⟩ (-1)).balance < 0 ∧
    (setsaldo true ⟨0, false, none, 0, []⟩ (-5)).balance < 0 := by
  constructor <;> norm_num [addsaldo, setsaldo, add_balance, set_balance]

/-- C4 (amended): the order flow itself preserves a non-negative balance —
the only debit is guarded by the balance check at the confirmation step — but
the admin set-balance/add-balance commands accept arbitrary integers and can
make the balance negative. -/
theorem C4_order_flow_nonneg (uid : ℤ) (st : BotState) (now : ℚ) (text0 : String)
    (catalog : Except Unit (List SvcEntry)) (provider : Except Unit ProviderResp)
    (h : 0 ≤ st.balance) :
    0 ≤ (on_text uid st now text0 catalog provider).1.balance := by
  unfold on_text
  by_cases h1 : now - st.last_action < COOLDOWN_SECONDS
  · rw [if_pos h1]; exact h
  · rw [if_neg h1]
    dsimp only
    by_cases h2 : sget st.sess Sess.mode "" ≠ "order"
    · rw [if_pos h2]; exact h
    · rw [if_neg h2]
      by_cases h3 : sget st.sess Sess.step "service" = "service"
      · rw [if_pos h3]; exact h
      · rw [if_neg h3]
        by_cases h4 : sget st.sess Sess.step "service" = "link"
        · rw [if_pos h4]
          by_cases h5 : (pyStrip text0).length < 4
          · rw [if_pos h5]; exact h
          · rw [if_neg h5]; exact h
        · rw [if_neg h4]
          by_cases h6 : sget st.sess Sess.step "service" = "qty"
          · rw [if_pos h6]
            cases pyParseInt (pyStrip text0) with
            | none => exact h
            | some qty =>
              dsimp only
              by_cases h7 : qty ≤ 0
              · rw [if_pos h7]; exact h
              · rw [if_neg h7]; exact h
          · rw [if_neg h6]
            by_cases h8 : sget st.sess Sess.step "service" = "confirm"
            · rw [if_pos h8]
              by_cases h9 : pyUpper (pyStrip text0) = "BATAL"
              · rw [if_pos h9]; exact h
              · rw [if_neg h9]
                by_cases h10 : pyUpper (pyStrip text0) ≠ "YA"
                · rw [if_pos h10]; exact h
                · rw [if_neg h10]
                  by_cases h11 : st.balance < sget st.sess Sess.price 0
                  · rw [if_pos h11]; exact h
                  · rw [if_neg h11]
                    cases provider with
                    | error e => exact h
                    | ok resp =>
                      dsimp only
                      cases extract_oid resp with
                      | none => exact h
                      | some oid =>
                        dsimp only [add_balance, create_order]
                        omega
            · rw [if_neg h8]; exact h

/-- Witness for C4 (amended) on a full successful purchase. -/
theorem C4_order_flow_nonneg_witness :
    (0 : ℤ) ≤ (100000 : ℤ) ∧
    0 ≤ (on_text 1 ⟨100000, true, some (confirmSess "77" "X" 10000 "mylink" 2000 22000), 0, []⟩
        10 "YA" (Except.ok []) (Except.ok ⟨some "555", none, none, none, none⟩)).1.balance :=
  ⟨by norm_num,
    C4_order_flow_nonneg 1 ⟨100000, true, some (confirmSess "77" "X" 10000 "mylink" 2000 22000), 0, []⟩
      10 "YA" (Except.ok []) (Except.ok ⟨some "555", none, none, none, none⟩) (by norm_num)⟩

/-! ## Behaviour of the service, target and quantity steps -/

/-- Session right after `/order`: `mode = "order"`, `step = "service"`. -/
def serviceSess : Sess :=
  ⟨some "order", some "service", none, none, none, none, none, none⟩

/-- Session at the target step, after the service step stored id, name, rate. -/
def linkSess (sid sname : String) (rate : ℚ) : Sess :=
  ⟨some "order", some "link", some sid, some sname, some rate, none, none, none⟩

/-- Session at the quantity step, after the target step stored the link. -/
def qtySess (sid sname : String) (rate : ℚ) (lk : String) : Sess :=
  ⟨some "order", some "qty", some sid, some sname, some rate, some lk, none, none⟩

/-- Reduction of `on_text` at the service step: whatever id is entered, the
flow stores it and advances to the target step; an id the catalog cannot
resolve gets the placeholder name `Service <id>` and rate 0. -/
theorem run_service_step (uid bal : ℤ) (seller : Bool) (last now : ℚ)
    (orders : List OrderRow) (input : String) (services : List SvcEntry)
    (provider : Except Unit ProviderResp)
    (hcool : ¬ now - last < COOLDOWN_SECONDS) :
    on_text uid ⟨bal, seller, some serviceSess, last, orders⟩ now input
        (Except.ok services) provider =
      (⟨bal, seller, some ⟨some "order", some "link", some (pyStrip input),
          some (match services.find? (fun e => (e.id != "") && (e.id == pyStrip input)) with
                | some e => e.name
                | none => "Service " ++ pyStrip input),
          some (match services.find? (fun e => (e.id != "") && (e.id == pyStrip input)) with
                | some e => e.rate
                | none => 0),
          none, none, none⟩, now, orders⟩,
       [Event.reply ReplyTag.serviceOk]) := by
  simp [on_text, serviceSess, emptySess, sget, supd, hcool]

/-- Reduction of `on_text` at the target step: a stripped input shorter than
4 characters re-prompts in place; otherwise the link is stored and the flow
advances to the quantity step. -/
theorem run_link_step (uid bal : ℤ) (seller : Bool) (sid sname : String) (rate : ℚ)
    (last now : ℚ) (orders : List OrderRow) (input : String)
    (catalog : Except Unit (List SvcEntry)) (provider : Except Unit ProviderResp)
    (hcool : ¬ now - last < COOLDOWN_SECONDS) :
    on_text uid ⟨bal, seller, some (linkSess sid sname rate), last, orders⟩ now input
        catalog provider =
      if (pyStrip input).length < 4 then
        (⟨bal, seller, some (linkSess sid sname rate), now, orders⟩,
         [Event.reply ReplyTag.linkShort])
      else
        (⟨bal, seller, some ⟨some "order", some "qty", some sid, some sname, some rate,
            some (pyStrip input), none, none⟩, now, orders⟩,
         [Event.reply ReplyTag.linkOk]) := by
  by_cases hlen : (pyStrip input).length < 4
  · simp [on_text, linkSess, sget, supd, hcool, hlen]
  · simp [on_text, linkSess, sget, supd, hcool, hlen]

/-- Reduction of `on_text` at the quantity step: a non-integer re-prompts, an
integer `≤ 0` re-prompts, and any integer `≥ 1` — with no bound check of any
kind — is stored together with the computed price, advancing to the
confirmation step. -/
theorem run_qty_step (uid bal : ℤ) (seller : Bool) (sid sname : String) (rate : ℚ)
    (lk : String) (last now : ℚ) (orders : List OrderRow) (input : String)
    (catalog : Except Unit (List SvcEntry)) (provider : Except Unit ProviderResp)
    (hcool : ¬ now - last < COOLDOWN_SECONDS) :
    on_text uid ⟨bal, seller, some (qtySess sid sname rate lk), last, orders⟩ now input
        catalog provider =
      match pyParseInt (pyStrip input) with
      | none =>
        (⟨bal, seller, some (qtySess sid sname rate lk), now, orders⟩,
         [Event.reply ReplyTag.qtyNotInt])
      | some qty =>
        if qty ≤ 0 then
          (⟨bal, seller, some (qtySess sid sname rate lk), now, orders⟩,
           [Event.reply ReplyTag.qtyMin1])
        else
          (⟨bal, seller, some ⟨some "order", some "confirm", some sid, some sname, some rate,
              some lk, some qty,
              some (if rate ≠ 0 then calc_price_idr seller rate qty else 1)⟩, now, orders⟩,
           [Event.reply ReplyTag.confirmPrompt]) := by
  cases hp : pyParseInt (pyStrip input) with
  | none => simp [on_text, qtySess, sget, supd, hcool, hp]
  | some qty =>
    by_cases hq : qty ≤ 0
    · simp [on_text, qtySess, sget, supd, hcool, hp, hq]
    · simp [on_text, qtySess, sget, supd, hcool, hp, hq]

/-- C7 (counterexample): a service id absent from the fetched catalog is not
rejected — the session is not aborted, the flow advances to the target step
with rate 0, and the balance is untouched.  The claimed validation error and
abort do not happen. -/
theorem C7_counterexample :
    (on_text 1 ⟨50000, false, some serviceSess, 0, []⟩ 10 "9999"
        (Except.ok [⟨"55", "Insta Likes", 500, "ig", 10, 100⟩]) (Except.error ())).1.sess
      ≠ none ∧
    sget (on_text 1 ⟨50000, false, some serviceSess, 0, []⟩ 10 "9999"
        (Except.ok [⟨"55", "Insta Likes", 500, "ig", 10, 100⟩]) (Except.error ())).1.sess
      Sess.step "service" = "link" ∧
    sget (on_text 1 ⟨50000, false, some serviceSess, 0, []⟩ 10 "9999"
        (Except.ok [⟨"55", "Insta Likes", 500, "ig", 10, 100⟩]) (Except.error ())).1.sess
      Sess.service_rate 0 = 0 ∧
    (on_text 1 ⟨50000, false, some serviceSess, 0, []⟩ 10 "9999"
        (Except.ok [⟨"55", "Insta Likes", 500, "ig", 10, 100⟩]) (Except.error ())).1.balance
      = 50000 := by
  have h := run_service_step 1 50000 false 0 10 [] "9999"
    [⟨"55", "Insta Likes", 500, "ig", 10, 100⟩] (Except.error ())
    (by norm_num [COOLDOWN_SECONDS])
  rw [h]
  exact ⟨Option.some_ne_none _, rfl, rfl, rfl⟩

/-- C7 (amended): an unresolvable service id does not abort the session and
is not surfaced as an error: the flow stores the raw id with the placeholder
name `Service <id>` and rate 0 and advances to the target step; the balance
is unchanged and no ledger call is made (no debit can have occurred). -/
theorem C7_unknown_service_advances (uid bal : ℤ) (seller : Bool) (last now : ℚ)
    (orders : List OrderRow) (input : String) (services : List SvcEntry)
    (provider : Except Unit ProviderResp)
    (hcool : ¬ now - last < COOLDOWN_SECONDS)
    (hfind : services.find? (fun e => (e.id != "") && (e.id == pyStrip input)) = none) :
    on_text uid ⟨bal, seller, some serviceSess, last, orders⟩ now input
        (Except.ok services) provider =
      (⟨bal, seller, some ⟨some "order", some "link", some (pyStrip input),
          some ("Service " ++ pyStrip input), some 0, none, none, none⟩, now, orders⟩,
       [Event.reply ReplyTag.serviceOk]) := by
  rw [run_service_step uid bal seller last now orders input services provider hcool, hfind]

/-- Witness for C7 (amended): id `9999` against a catalog holding only `55`. -/
theorem C7_unknown_service_advances_witness :
    (¬ (10 : ℚ) - 0 < COOLDOWN_SECONDS) ∧
    ([⟨"55", "Insta Likes", 500, "ig", 10, 100⟩] : List SvcEntry).find?
      (fun e => (e.id != "") && (e.id == pyStrip "9999")) = none ∧
    on_text 1 ⟨50000, false, some serviceSess, 0, []⟩ 10 "9999"
        (Except.ok [⟨"55", "Insta Likes", 500, "ig", 10, 100⟩]) (Except.error ()) =
      (⟨50000, false, some ⟨some "order", some "link", some (pyStrip "9999"),
          some ("Service " ++ pyStrip "9999"), some 0, none, none, none⟩, 10, []⟩,
       [Event.reply ReplyTag.serviceOk]) :=
  ⟨by norm_num [COOLDOWN_SECONDS], rfl,
    C7_unknown_service_advances 1 50000 false 0 10 [] "9999"
      [⟨"55", "Insta Likes", 500, "ig", 10, 100⟩] (Except.error ())
      (by norm_num [COOLDOWN_SECONDS]) rfl⟩

/-- C9 (counterexample): the three-character target `abc` (length exactly 3,
which the claim says advances the session) is rejected by the code: the
session stays at the target step, the link is not stored, and the only
effect is the re-prompt reply. -/
theorem C9_counterexample :
    3 ≤ ("abc" : String).length ∧
    (on_text 1 ⟨50000, false, some (linkSess "55" "Insta Likes" 500), 0, []⟩ 10 "abc"
        (Except.ok []) (Except.error ())).1.sess = some (linkSess "55" "Insta Likes" 500) ∧
    (on_text 1 ⟨50000, false, some (linkSess "55" "Insta Likes" 500), 0, []⟩ 10 "abc"
        (Except.ok []) (Except.error ())).2 = [Event.reply ReplyTag.linkShort] := by
  have h := run_link_step 1 50000 false "55" "Insta Likes" 500 0 10 [] "abc"
    (Except.ok []) (Except.error ()) (by norm_num [COOLDOWN_SECONDS])
  rw [h]
  exact ⟨by decide, rfl, rfl⟩

/-- C9 (amended): at the target step the stripped input advances the session
to the quantity step exactly when its length is at least 4; any shorter
input (length ≤ 3) re-prompts without advancing and without storing the
link. -/
theorem C9_link_length_four (uid bal : ℤ) (seller : Bool) (sid sname : String) (rate : ℚ)
    (last now : ℚ) (orders : List OrderRow) (input : String)
    (catalog : Except Unit (List SvcEntry)) (provider : Except Unit ProviderResp)
    (hcool : ¬ now - last < COOLDOWN_SECONDS) :
    ((pyStrip input).length < 4 →
      on_text uid ⟨bal, seller, some (linkSess sid sname rate), last, orders⟩ now input
          catalog provider =
        (⟨bal, seller, some (linkSess sid sname rate), now, orders⟩,
         [Event.reply ReplyTag.linkShort])) ∧
    (4 ≤ (pyStrip input).length →
      on_text uid ⟨bal, seller, some (linkSess sid sname rate), last, orders⟩ now input
          catalog provider =
        (⟨bal, seller, some ⟨some "order", some "qty", some sid, some sname, some rate,
            some (pyStrip input), none, none⟩, now, orders⟩,
         [Event.reply ReplyTag.linkOk])) := by
  rw [run_link_step uid bal seller sid sname rate last now orders input catalog provider hcool]
  constructor <;> intro hlen
  · rw [if_pos hlen]
  · rw [if_neg (by omega)]

/-- Witness for C9 (amended) on the length-3 input `abc` and the length-10
input `myusername`. -/
theorem C9_link_length_four_witness :
    (¬ (10 : ℚ) - 0 < COOLDOWN_SECONDS) ∧
    (((pyStrip "abc").length < 4 →
      on_text 1 ⟨50000, false, some (linkSess "55" "Insta Likes" 500), 0, []⟩ 10 "abc"
          (Except.ok []) (Except.error ()) =
        (⟨50000, false, some (linkSess "55" "Insta Likes" 500), 10, []⟩,
         [Event.reply ReplyTag.linkShort])) ∧
    (4 ≤ (pyStrip "abc").length →
      on_text 1 ⟨50000, false, some (linkSess "55" "Insta Likes" 500), 0, []⟩ 10 "abc"
          (Except.ok []) (Except.error ()) =
        (⟨50000, false, some ⟨some "order", some "qty", some "55", some "Insta Likes",
            some 500, some (pyStrip "abc"), none, none⟩, 10, []⟩,
         [Event.reply ReplyTag.linkOk]))) :=
  ⟨by norm_num [COOLDOWN_SECONDS],
    C9_link_length_four 1 50000 false "55" "Insta Likes" 500 0 10 [] "abc"
      (Except.ok []) (Except.error ()) (by norm_num [COOLDOWN_SECONDS])⟩

/-- Catalog used by the C8 counterexample trace: one service whose raw entry
carries `minQuantity = 10` and `maxQuantity = 100` (fields the code never
reads). -/
def c8_catalog : List SvcEntry := [⟨"77", "IG Likes", 500, "ig", 10, 100⟩]

/-- Three-message order-flow trace for C8: service `77`, target
`myusername`, then quantity `5000` — far above the service's maximum of
100. -/
def c8_run : BotState × List Event :=
  on_text 1 (on_text 1 (on_text 1 ⟨100000, false, some serviceSess, 0, []⟩
      10 "77" (Except.ok c8_catalog) (Except.error ())).1
    20 "myusername" (Except.ok c8_catalog) (Except.error ())).1
    30 "5000" (Except.ok c8_catalog) (Except.error ())

/-- C8 (counterexample): quantity 5000 for a service whose catalog entry says
`maxQuantity = 100` is accepted — the session advances to the confirmation
step with quantity 5000 stored, so the claimed `[min, max]` gate does not
exist. -/
theorem C8_counterexample :
    sget c8_run.1.sess Sess.step "service" = "confirm" ∧
    sget c8_run.1.sess Sess.quantity 0 = 5000 ∧
    c8_catalog.map SvcEntry.maxQuantity = [100] ∧
    (100 : ℤ) < 5000 := by
  have e1 : (on_text 1 ⟨100000, false, some serviceSess, 0, []⟩
      10 "77" (Except.ok c8_catalog) (Except.error ())) =
      (⟨100000, false, some (linkSess "77" "IG Likes" 500), 10, []⟩,
       [Event.reply ReplyTag.serviceOk]) := by
    rw [run_service_step 1 100000 false 0 10 [] "77" c8_catalog (Except.error ())
      (by norm_num [COOLDOWN_SECONDS])]
    rfl
  have e2 : (on_text 1 ⟨100000, false, some (linkSess "77" "IG Likes" 500), 10, []⟩
      20 "myusername" (Except.ok c8_catalog) (Except.error ())) =
      (⟨100000, false, some (qtySess "77" "IG Likes" 500 "myusername"), 20, []⟩,
       [Event.reply ReplyTag.linkOk]) := by
    rw [run_link_step 1 100000 false "77" "IG Likes" 500 10 20 [] "myusername"
      (Except.ok c8_catalog) (Except.error ()) (by norm_num [COOLDOWN_SECONDS])]
    rfl
  unfold c8_run
  rw [e1]
  dsimp only
  rw [e2]
  dsimp only
  rw [run_qty_step 1 100000 false "77" "IG Likes" 500 "myusername" 20 30 [] "5000"
    (Except.ok c8_catalog) (Except.error ()) (by norm_num [COOLDOWN_SECONDS])]
  exact ⟨rfl, rfl, rfl, by norm_num⟩

/-- C8 (amended): at the quantity step the session advances to confirmation
exactly when the stripped input parses as an integer `≥ 1` — the service's
min/max bounds are never consulted.  A rejected input (non-integer or `≤ 0`)
leaves the session unchanged at the quantity step, stores nothing, and makes
no ledger call; an accepted quantity is stored together with the computed
price. -/
theorem C8_qty_no_bounds_check (uid bal : ℤ) (seller : Bool) (sid sname : String) (rate : ℚ)
    (lk : String) (last now : ℚ) (orders : List OrderRow) (input : String)
    (catalog : Except Unit (List SvcEntry)) (provider : Except Unit ProviderResp)
    (hcool : ¬ now - last < COOLDOWN_SECONDS) :
    (pyParseInt (pyStrip input) = none →
      on_text uid ⟨bal, seller, some (qtySess sid sname rate lk), last, orders⟩ now input
          catalog provider =
        (⟨bal, seller, some (qtySess sid sname rate lk), now, orders⟩,
         [Event.reply ReplyTag.qtyNotInt])) ∧
    (∀ q : ℤ, pyParseInt (pyStrip input) = some q → q ≤ 0 →
      on_text uid ⟨bal, seller, some (qtySess sid sname rate lk), last, orders⟩ now input
          catalog provider =
        (⟨bal, seller, some (qtySess sid sname rate lk), now, orders⟩,
         [Event.reply ReplyTag.qtyMin1])) ∧
    (∀ q : ℤ, pyParseInt (pyStrip input) = some q → 0 < q →
      on_text uid ⟨bal, seller, some (qtySess sid sname rate lk), last, orders⟩ now input
          catalog provider =
        (⟨bal, seller, some ⟨some "order", some "confirm", some sid, some sname, some rate,
            some lk, some q, some (if rate ≠ 0 then calc_price_idr seller rate q else 1)⟩,
            now, orders⟩,
         [Event.reply ReplyTag.confirmPrompt])) := by
  rw [run_qty_step uid bal seller sid sname rate lk last now orders input catalog provider hcool]
  refine ⟨?_, ?_, ?_⟩
  · intro hp
    rw [hp]
  · intro q hp hq
    rw [hp]
    dsimp only
    rw [if_pos hq]
  · intro q hp hq
    rw [hp]
    dsimp only
    rw [if_neg (by omega)]

/-- Witness for C8 (amended) on the input `12`. -/
theorem C8_qty_no_bounds_check_witness :
    (¬ (10 : ℚ) - 0 < COOLDOWN_SECONDS) ∧
    ((pyParseInt (pyStrip "12") = none →
      on_text 1 ⟨50000, false, some (qtySess "55" "Insta Likes" 500 "myusername"), 0, []⟩
          10 "12" (Except.ok []) (Except.error ()) =
        (⟨50000, false, some (qtySess "55" "Insta Likes" 500 "myusername"), 10, []⟩,
         [Event.reply ReplyTag.qtyNotInt])) ∧
    (∀ q : ℤ, pyParseInt (pyStrip "12") = some q → q ≤ 0 →
      on_text 1 ⟨50000, false, some (qtySess "55" "Insta Likes" 500 "myusername"), 0, []⟩
          10 "12" (Except.ok []) (Except.error ()) =
        (⟨50000, false, some (qtySess "55" "Insta Likes" 500 "myusername"), 10, []⟩,
         [Event.reply ReplyTag.qtyMin1])) ∧
    (∀ q : ℤ, pyParseInt (pyStrip "12") = some q → 0 < q →
      on_text 1 ⟨50000, false, some (qtySess "55" "Insta Likes" 500 "myusername"), 0, []⟩
          10 "12" (Except.ok []) (Except.error ()) =
        (⟨50000, false, some ⟨some "order", some "confirm", some "55", some "Insta Likes",
            some 500, some "myusername", some q,
            some (if (500 : ℚ) ≠ 0 then calc_price_idr false 500 q else 1)⟩, 10, []⟩,
         [Event.reply ReplyTag.confirmPrompt]))) :=
  ⟨by norm_num [COOLDOWN_SECONDS],
    C8_qty_no_bounds_check 1 50000 false "55" "Insta Likes" 500 "myusername" 0 10 [] "12"
      (Except.ok []) (Except.error ()) (by norm_num [COOLDOWN_SECONDS])⟩

end SmmBot
